import Mathlib

/-!
Shallow embedding of the request-coordination and polling core of
`src/main.py` (Instagram Profile API).

The embedding models:
  * the configuration constants (`POLL_INTERVAL`, `MAX_WAIT_TIME`, `CACHE_TTL`);
  * `validate_username` with the exact semantics of Python
    `re.match(r"^[a-zA-Z0-9._]{1,30}$", u)` — in particular Python's `$`
    also matches just before a single trailing newline;
  * the TTL cache `CACHE`, the `STATS` record and `notify_telegram`;
  * `fetch_from_apify` (submit → poll-until-terminal → fetch dataset),
    with the remote system abstracted as an environment `ApifyEnv`
    giving the responses the network would return;
  * `format_profile` and the endpoint handler `get_user`, plus `get_stats`.

Exceptions are explicit: `Exc.httpExc` models a raised `HTTPException`
(status code, error label, detail) and `Exc.pyError` models any other
Python exception (e.g. the `KeyError` raised when `run_data["data"]["id"]`
is absent).  Wall-clock time is a `Nat` parameter `now`; the polling
loop counts elapsed seconds exactly as the source's `elapsed` counter does.
-/

/-- Configuration constant from `src/main.py` line 34: seconds between polls. -/
def POLL_INTERVAL : Nat := 1

/-- Configuration constant from `src/main.py` line 35: poll deadline in seconds. -/
def MAX_WAIT_TIME : Nat := 15

/-- Configuration constant from `src/main.py` line 36: cache TTL in seconds. -/
def CACHE_TTL : Nat := 300

/-- Character class `[a-zA-Z0-9._]` of the username regex. -/
def charOk (c : Char) : Bool :=
  c.isAlpha || c.isDigit || c == '.' || c == '_'

/-- Python regex `$` semantics at position `k` in `l`: end of string, or just
before a newline that ends the string. -/
def dollarAt (l : List Char) (k : Nat) : Bool :=
  k == l.length || (k + 1 == l.length && l[k]? == some '\n')

/-- `validate_username` (line 58): `re.match(r"^[a-zA-Z0-9._]{1,30}$", u)`.
A match exists iff for some `k` with `1 ≤ k ≤ 30` the first `k` characters
are in the class and `$` matches at position `k` (Python `$` semantics). -/
def validate_username (username : String) : Bool :=
  (List.range' 1 30).any fun k =>
    (username.data.take k).all charOk && dollarAt username.data k

/-- The spec's key grammar `^[A-Za-z0-9._]{1,30}$` read with strict anchoring
(`$` = end of input only).  This definition follows the spec's words, for
comparison against `validate_username`, which follows the source. -/
def spec_key_grammar (u : String) : Bool :=
  decide (1 ≤ u.data.length) && decide (u.data.length ≤ 30) && u.data.all charOk

/-- The grammar `validate_username` actually decides: the spec grammar, or a
spec-grammar key followed by one trailing newline (Python `$`). -/
def python_relaxed_grammar (u : String) : Bool :=
  spec_key_grammar u ||
    (u.data.getLast? == some '\n' && spec_key_grammar ⟨u.data.dropLast⟩)

/-- `format_error_message` (line 61) with `status_code = None`, as called
from `get_user`. -/
def format_error_message (context : String) (attempt : Nat) (error : String) : String :=
  "[" ++ context ++ "] Attempt " ++ toString attempt ++ " failed | Error: " ++ error

/-- One entry of `STATS["last_alerts"]`. -/
structure Alert where
  time : Nat
  msg : String
deriving DecidableEq

/-- `notify_telegram` (line 69): append the alert, keep the last 10
(`STATS["last_alerts"][-10:]`). -/
def notify_telegram (last_alerts : List Alert) (now : Nat) (message : String) : List Alert :=
  let appended := last_alerts ++ [⟨now, message⟩]
  appended.drop (appended.length - 10)

/-- A JSON scalar as it occurs in profile dicts. -/
inductive Val
| s (v : String)
| n (v : Int)
deriving DecidableEq

/-- A Python dict of JSON scalars (a profile item). -/
abbrev ProfileDict := List (String × Val)

/-- Python `dict.get` (first binding wins; dicts carry no duplicate keys). -/
def dictGet {α : Type} (m : List (String × α)) (k : String) : Option α :=
  match m with
  | [] => none
  | (k', v) :: rest => if k' = k then some v else dictGet rest k

/-- Python `d[k] = v`: replace in place, or append a new binding at the end. -/
def dictSet {α : Type} (m : List (String × α)) (k : String) (v : α) :
    List (String × α) :=
  match m with
  | [] => [(k, v)]
  | (k', v') :: rest => if k' = k then (k, v) :: rest else (k', v') :: dictSet rest k v

/-- A raised `HTTPException(status_code, {"error": ..., "detail"/"message": ...})`. -/
structure HttpError where
  status_code : Nat
  error : String
  detail : String
deriving DecidableEq

/-- An exception escaping `fetch_from_apify`: either a classified
`HTTPException`, or an unclassified Python exception (str of it). -/
inductive Exc
| httpExc (e : HttpError)
| pyError (detail : String)
deriving DecidableEq

/-- The submit response (`run_res`): status code, body text, and the optional
fields `run_data["data"]["id"]` and `run_data["data"]["defaultDatasetId"]`. -/
structure SubmitResp where
  status_code : Nat
  text : String
  id? : Option String
  defaultDatasetId? : Option String
deriving DecidableEq

/-- The JSON body of the dataset response: unparsable, not a list, or a list
of profile dicts. -/
inductive DatasetJson
| invalid
| notList
| items (l : List ProfileDict)

/-- The dataset response (`data_res`). -/
structure DatasetResp where
  status_code : Nat
  text : String
  json : DatasetJson

/-- The remote system as seen by one `fetch_from_apify` call: the submit
response (or a transport error with its detail), the status string returned
by the poll at each elapsed second, and the dataset response (or a transport
error). -/
structure ApifyEnv where
  submit : Except String SubmitResp
  statusAt : Nat → String
  dataset : Except String DatasetResp

/-- One iteration of the source's `while elapsed < MAX_WAIT_TIME` poll loop
(lines 112–129), with a structural fuel argument; `elapsed` advances by
`POLL_INTERVAL` (= 1) per iteration, so fuel `MAX_WAIT_TIME` from
`elapsed = 0` never runs out before the guard does.  Returns the phase
outcome and the number of status queries issued. -/
def poll_wait (statusAt : Nat → String) : Nat → Nat → Except HttpError Unit × Nat
  | _elapsed, 0 => (.error ⟨504, "APIFY_TIMEOUT", ""⟩, 0)
  | elapsed, fuel + 1 =>
    if elapsed < MAX_WAIT_TIME then
      let status := statusAt elapsed
      if status = "SUCCEEDED" then (.ok (), 1)
      else if status = "FAILED" ∨ status = "ABORTED" ∨ status = "TIMED-OUT" then
        (.error ⟨502, "APIFY_RUN_FAILED", "Actor run status: " ++ status⟩, 1)
      else
        let r := poll_wait statusAt (elapsed + POLL_INTERVAL) fuel
        (r.1, r.2 + 1)
    else
      (.error ⟨504, "APIFY_TIMEOUT", ""⟩, 0)

/-- Is a status string terminal for the poll loop? -/
def isTerminal (s : String) : Bool :=
  s == "SUCCEEDED" || s == "FAILED" || s == "ABORTED" || s == "TIMED-OUT"

/-- `fetch_from_apify` (lines 90–161): submit, poll until terminal within the
deadline, fetch the dataset, classify.  Missing `id`/`defaultDatasetId` on a
201 response raises an unclassified `KeyError` (a `pyError`), exactly as the
unguarded subscripts on line 107–108 do. -/
def fetch_from_apify (env : ApifyEnv) (username : String) : Except Exc ProfileDict :=
  match env.submit with
  | .error d => .error (.httpExc ⟨503, "APIFY_UNREACHABLE", d⟩)
  | .ok run_res =>
    if run_res.status_code ≠ 201 then
      .error (.httpExc ⟨502, "APIFY_RUN_FAILED", run_res.text⟩)
    else
      match run_res.id? with
      | none => .error (.pyError "KeyError: id")
      | some _run_id =>
        match run_res.defaultDatasetId? with
        | none => .error (.pyError "KeyError: defaultDatasetId")
        | some _dataset_id =>
          match (poll_wait env.statusAt 0 MAX_WAIT_TIME).1 with
          | .error e => .error (.httpExc e)
          | .ok _ =>
            match env.dataset with
            | .error d => .error (.pyError d)
            | .ok data_res =>
              if data_res.status_code ≠ 200 then
                .error (.httpExc ⟨502, "DATASET_FETCH_FAILED", data_res.text⟩)
              else
                match data_res.json with
                | .invalid => .error (.httpExc ⟨502, "INVALID_JSON", ""⟩)
                | .notList =>
                  .error (.httpExc ⟨404, "PROFILE_NOT_FOUND",
                    "No data returned for @" ++ username⟩)
                | .items [] =>
                  .error (.httpExc ⟨404, "PROFILE_NOT_FOUND",
                    "No data returned for @" ++ username⟩)
                | .items (profile :: _) =>
                  if dictGet profile "error" = some (.s "not_found") then
                    .error (.httpExc ⟨404, "PROFILE_NOT_FOUND",
                      "Instagram user @" ++ username ++ " does not exist"⟩)
                  else
                    .ok profile

/-- The fixed-shape record built by `format_profile` (lines 163–173). -/
structure Formatted where
  username : Option Val
  real_name : Option Val
  profile_pic : Option Val
  followers : Option Val
  following : Option Val
  post_count : Option Val
  bio : Option Val
deriving DecidableEq

/-- `format_profile` (lines 163–173): field-by-field `dict.get` projection. -/
def format_profile (profile : ProfileDict) : Formatted :=
  { username := dictGet profile "username"
    real_name := dictGet profile "fullName"
    profile_pic := dictGet profile "profilePicUrl"
    followers := dictGet profile "followersCount"
    following := dictGet profile "followsCount"
    post_count := dictGet profile "postsCount"
    bio := dictGet profile "biography" }

/-- One value of the `CACHE` dict: formatted data plus absolute expiry. -/
structure CacheEntry where
  data : Formatted
  expiry : Nat
deriving DecidableEq

/-- The process-wide mutable state: `CACHE` and `STATS`. -/
structure St where
  cache : List (String × CacheEntry)
  hits : Nat
  misses : Nat
  alerts : List Alert
deriving DecidableEq

/-- The initial state: empty cache, zero counters, no alerts. -/
def st0 : St := ⟨[], 0, 0, []⟩

instance {ε α : Type} [DecidableEq ε] [DecidableEq α] : DecidableEq (Except ε α) :=
  fun a b =>
  match a, b with
  | .error e, .error f =>
    if h : e = f then isTrue (h ▸ rfl) else isFalse fun hc => h (Except.error.inj hc)
  | .error _, .ok _ => isFalse fun hc => Except.noConfusion hc
  | .ok _, .error _ => isFalse fun hc => Except.noConfusion hc
  | .ok x, .ok y =>
    if h : x = y then isTrue (h ▸ rfl) else isFalse fun hc => h (Except.ok.inj hc)

/-- Outcome of one `get_user` invocation: the HTTP result, the state after,
and whether `fetch_from_apify` (the Job Poller) was invoked. -/
structure ResolveOut where
  result : Except HttpError Formatted
  st : St
  pollerInvoked : Bool
deriving DecidableEq

/-- The cache-miss tail of `get_user` (lines 195–214): call
`fetch_from_apify`; re-raise a classified `HTTPException` untouched; wrap any
other exception as a 500 `INTERNAL_ERROR` after notifying; on success format
the profile and write the cache entry with `expiry = now + CACHE_TTL`. -/
def get_user_miss (env : ApifyEnv) (now : Nat) (st : St) (username : String) :
    ResolveOut :=
  match fetch_from_apify env username with
  | .error (.httpExc e) => ⟨.error e, st, true⟩
  | .error (.pyError d) =>
    let msg := format_error_message username 1 d
    ⟨.error ⟨500, "INTERNAL_ERROR", d⟩,
      { st with alerts := notify_telegram st.alerts now msg }, true⟩
  | .ok raw_profile =>
    let formatted := format_profile raw_profile
    ⟨.ok formatted,
      { st with cache := dictSet st.cache username ⟨formatted, now + CACHE_TTL⟩ },
      true⟩

/-- `get_user` (lines 176–214): validate, consult the cache (hit iff present
and `expiry > now`), otherwise count a miss and run the miss tail. -/
def get_user (env : ApifyEnv) (now : Nat) (st : St) (username : String) :
    ResolveOut :=
  if validate_username username = false then
    ⟨.error ⟨400, "INVALID_USERNAME", "Instagram username format invalid"⟩, st, false⟩
  else
    match dictGet st.cache username with
    | some cached =>
      if now < cached.expiry then
        ⟨.ok cached.data, { st with hits := st.hits + 1 }, false⟩
      else
        get_user_miss env now { st with misses := st.misses + 1 } username
    | none =>
      get_user_miss env now { st with misses := st.misses + 1 } username

/-- The body returned by `get_stats` (lines 260–269). -/
structure StatsOut where
  cache_size : Nat
  cache_hits : Nat
  cache_misses : Nat
  last_alerts : List Alert
deriving DecidableEq

/-- `get_stats` (lines 260–269): expose cache size, counters and the alert log. -/
def get_stats (st : St) : StatsOut :=
  ⟨st.cache.length, st.hits, st.misses, st.alerts⟩

/-!
Concrete environments used by counterexamples and witnesses.
-/

/-- A raw profile as the dataset returns it for key `"nasa"`. -/
def nasaProfile : ProfileDict :=
  [("username", .s "nasa"), ("followersCount", .n 100)]

/-- Environment: submit succeeds (201, ids present), first poll already
`SUCCEEDED`, dataset holds one item, `nasaProfile`. -/
def envOK : ApifyEnv :=
  { submit := .ok ⟨201, "", some "run1", some "ds1"⟩
    statusAt := fun _ => "SUCCEEDED"
    dataset := .ok ⟨200, "", .items [nasaProfile]⟩ }

/-- Environment: submit succeeds, first poll `SUCCEEDED`, dataset empty —
the protocol-level "profile not found" outcome. -/
def envNF : ApifyEnv :=
  { submit := .ok ⟨201, "", some "run1", some "ds1"⟩
    statusAt := fun _ => "SUCCEEDED"
    dataset := .ok ⟨200, "", .items []⟩ }

/-- Environment: the submit request fails at the transport level. -/
def envUR : ApifyEnv :=
  { submit := .error "connection refused"
    statusAt := fun _ => "RUNNING"
    dataset := .ok ⟨200, "", .items []⟩ }

/-- Environment: submit answers with a non-201 status. -/
def env502 : ApifyEnv :=
  { submit := .ok ⟨403, "actor quota exceeded", some "run1", some "ds1"⟩
    statusAt := fun _ => "RUNNING"
    dataset := .ok ⟨200, "", .items []⟩ }

/-- Environment: submit answers 201 but the body carries no run id. -/
def envNoId : ApifyEnv :=
  { submit := .ok ⟨201, "", none, none⟩
    statusAt := fun _ => "SUCCEEDED"
    dataset := .ok ⟨200, "", .items [nasaProfile]⟩ }

/-- Environment: the run never leaves `RUNNING`. -/
def envTO : ApifyEnv :=
  { submit := .ok ⟨201, "", some "run1", some "ds1"⟩
    statusAt := fun _ => "RUNNING"
    dataset := .ok ⟨200, "", .items [nasaProfile]⟩ }

/-!
Helper lemmas.
-/

theorem dictGet_dictSet_self {α : Type} (m : List (String × α)) (k : String) (v : α) :
    dictGet (dictSet m k v) k = some v := by
  induction m with
  | nil => simp [dictGet, dictSet]
  | cons p rest ih =>
    obtain ⟨k', v'⟩ := p
    by_cases h : k' = k <;> simp [dictGet, dictSet, h, ih]

theorem get_user_miss_pollerInvoked (env : ApifyEnv) (now : Nat) (st : St)
    (u : String) : (get_user_miss env now st u).pollerInvoked = true := by
  unfold get_user_miss
  split <;> rfl

theorem get_user_miss_result_of_httpExc (env : ApifyEnv) (now : Nat) (st : St)
    (u : String) (e : HttpError)
    (h : fetch_from_apify env u = .error (.httpExc e)) :
    get_user_miss env now st u = ⟨.error e, st, true⟩ := by
  unfold get_user_miss
  rw [h]

theorem get_user_miss_result_of_ok (env : ApifyEnv) (now : Nat) (st : St)
    (u : String) (raw : ProfileDict)
    (h : fetch_from_apify env u = .ok raw) :
    get_user_miss env now st u =
      ⟨.ok (format_profile raw),
        { st with cache := dictSet st.cache u ⟨format_profile raw, now + CACHE_TTL⟩ },
        true⟩ := by
  unfold get_user_miss
  rw [h]

theorem get_user_of_valid_miss (env : ApifyEnv) (now : Nat) (st : St) (u : String)
    (hval : validate_username u = true)
    (hmiss : dictGet st.cache u = none) :
    get_user env now st u = get_user_miss env now { st with misses := st.misses + 1 } u := by
  unfold get_user
  rw [hval, hmiss]
  rfl

/-- If the status stream is non-terminal at every instant before the deadline,
the poll loop exits through the timeout branch. -/
theorem poll_wait_timeout (s : Nat → String) (elapsed fuel : Nat)
    (h : ∀ k, k < MAX_WAIT_TIME → isTerminal (s k) = false) :
    (poll_wait s elapsed fuel).1 = .error ⟨504, "APIFY_TIMEOUT", ""⟩ := by
  induction fuel generalizing elapsed with
  | zero => rfl
  | succ fuel ih =>
    unfold poll_wait
    by_cases hl : elapsed < MAX_WAIT_TIME
    · have hn := h elapsed hl
      simp only [isTerminal, Bool.or_eq_false_iff, beq_eq_false_iff_ne, ne_eq] at hn
      simp only [hl, if_true]
      rw [if_neg hn.1.1.1, if_neg (by push_neg; exact ⟨hn.1.1.2, hn.1.2, hn.2⟩)]
      exact ih (elapsed + POLL_INTERVAL)
    · simp [hl]

/-- The poll loop issues at most `fuel` status queries. -/
theorem poll_wait_count_le (s : Nat → String) (elapsed fuel : Nat) :
    (poll_wait s elapsed fuel).2 ≤ fuel := by
  induction fuel generalizing elapsed with
  | zero => exact Nat.le_refl 0
  | succ fuel ih =>
    unfold poll_wait
    by_cases hl : elapsed < MAX_WAIT_TIME
    · simp only [hl, if_true]
      by_cases h1 : s elapsed = "SUCCEEDED"
      · simp [h1]
      · rw [if_neg h1]
        by_cases h2 : s elapsed = "FAILED" ∨ s elapsed = "ABORTED" ∨ s elapsed = "TIMED-OUT"
        · simp [h2]
        · rw [if_neg h2]
          exact Nat.succ_le_succ (ih (elapsed + POLL_INTERVAL))
    · simp [hl]

/-- The poll loop exits with success, a run failure, or the timeout: no other
outcome exists. -/
theorem poll_wait_classified (s : Nat → String) (elapsed fuel : Nat) :
    (poll_wait s elapsed fuel).1 = .ok ()
    ∨ (∃ st, (poll_wait s elapsed fuel).1 =
        .error ⟨502, "APIFY_RUN_FAILED", "Actor run status: " ++ st⟩)
    ∨ (poll_wait s elapsed fuel).1 = .error ⟨504, "APIFY_TIMEOUT", ""⟩ := by
  induction fuel generalizing elapsed with
  | zero => right; right; rfl
  | succ fuel ih =>
    unfold poll_wait
    by_cases hl : elapsed < MAX_WAIT_TIME
    · simp only [hl, if_true]
      by_cases h1 : s elapsed = "SUCCEEDED"
      · left; simp [h1]
      · rw [if_neg h1]
        by_cases h2 : s elapsed = "FAILED" ∨ s elapsed = "ABORTED" ∨ s elapsed = "TIMED-OUT"
        · right; left; exact ⟨s elapsed, by simp [h2]⟩
        · rw [if_neg h2]
          exact ih (elapsed + POLL_INTERVAL)
    · right; right; simp [hl]

theorem get_user_hit (env : ApifyEnv) (now : Nat) (st : St) (u : String)
    (entry : CacheEntry)
    (hval : validate_username u = true)
    (hget : dictGet st.cache u = some entry)
    (hfresh : now < entry.expiry) :
    get_user env now st u = ⟨.ok entry.data, { st with hits := st.hits + 1 }, false⟩ := by
  unfold get_user
  rw [hval, hget]
  exact if_pos hfresh

theorem get_user_stale (env : ApifyEnv) (now : Nat) (st : St) (u : String)
    (entry : CacheEntry)
    (hval : validate_username u = true)
    (hget : dictGet st.cache u = some entry)
    (hstale : ¬ now < entry.expiry) :
    get_user env now st u = get_user_miss env now { st with misses := st.misses + 1 } u := by
  unfold get_user
  rw [hval, hget]
  exact if_neg hstale

theorem notify_telegram_length_le (last_alerts : List Alert) (now : Nat)
    (message : String) : (notify_telegram last_alerts now message).length ≤ 10 := by
  simp only [notify_telegram, List.length_drop]
  omega

theorem get_user_miss_alerts (env : ApifyEnv) (now : Nat) (st : St) (u : String) :
    (get_user_miss env now st u).st.alerts = st.alerts
    ∨ (get_user_miss env now st u).st.alerts.length ≤ 10 := by
  unfold get_user_miss
  split
  · left; rfl
  · right
    exact notify_telegram_length_le st.alerts now _
  · left; rfl

/-- Reduction of an explicitly built `String` to its character list. -/
theorem string_mk_data (l : List Char) : (⟨l⟩ : String).data = l := rfl

/-- Membership in `List.range' 1 30` is the interval `1 ≤ k ≤ 30`. -/
theorem mem_range'_one_thirty (k : Nat) : k ∈ List.range' 1 30 ↔ 1 ≤ k ∧ k ≤ 30 := by
  rw [List.mem_range']
  constructor
  · rintro ⟨i, hi, rfl⟩; omega
  · rintro ⟨h1, h2⟩; exact ⟨k - 1, by omega, by omega⟩

/-- `validate_username` decides exactly the spec grammar relaxed by one
optional trailing newline — the Python reading of `$` in the source regex. -/
theorem validate_username_eq_relaxed (u : String) :
    validate_username u = python_relaxed_grammar u := by
  have h : validate_username u = true ↔ python_relaxed_grammar u = true := by
    simp only [validate_username, python_relaxed_grammar, spec_key_grammar,
      List.any_eq_true, Bool.and_eq_true, List.all_eq_true, dollarAt,
      Bool.or_eq_true, beq_iff_eq, decide_eq_true_eq, mem_range'_one_thirty,
      string_mk_data]
    constructor
    · rintro ⟨k, ⟨hk1, hk30⟩, hall, hdollar⟩
      rcases hdollar with hend | ⟨hlen, hget⟩
      · left
        refine ⟨⟨by omega, by omega⟩, ?_⟩
        intro c hc
        exact hall c (by rw [hend, List.take_length]; exact hc)
      · right
        refine ⟨?_, ⟨?_, ?_⟩, ?_⟩
        · rw [List.getLast?_eq_getElem?]
          have he : u.data.length - 1 = k := by omega
          rw [he]; exact hget
        · rw [List.length_dropLast]; omega
        · rw [List.length_dropLast]; omega
        · intro c hc
          apply hall c
          rw [List.dropLast_eq_take] at hc
          have he : u.data.length - 1 = k := by omega
          rw [he] at hc
          exact hc
    · rintro (⟨⟨h1, h2⟩, hall⟩ | ⟨hlast, ⟨h1, h2⟩, hall⟩)
      · refine ⟨u.data.length, ⟨h1, h2⟩, ?_, Or.inl rfl⟩
        intro c hc
        exact hall c (by rw [List.take_length] at hc; exact hc)
      · have hlen1 : 1 ≤ u.data.length := by
          rw [List.length_dropLast] at h1; omega
        refine ⟨u.data.length - 1, ⟨?_, ?_⟩, ?_, Or.inr ⟨by omega, ?_⟩⟩
        · rw [List.length_dropLast] at h1; omega
        · rw [List.length_dropLast] at h2; omega
        · intro c hc
          apply hall c
          rw [List.dropLast_eq_take]
          exact hc
        · rw [← List.getLast?_eq_getElem?]
          exact hlast
  cases hv : validate_username u <;> cases hr : python_relaxed_grammar u <;> simp_all

/-- The state `get_user` leaves behind after a successful cache write. -/
def st_after_success (st : St) (u : String) (f : Formatted) (now : Nat) : St :=
  ⟨dictSet st.cache u ⟨f, now + CACHE_TTL⟩, st.hits, st.misses + 1, st.alerts⟩

/-!
Claims.
-/

/-- C1 counterexample: for key `"doesnotexist123"` classified `NotFound`
(the dataset is empty), `resolve` returns `NotFound` but stores no cache
entry at all, and an immediately following `resolve` for the same key
invokes the Job Poller again — contradicting the claimed negative caching. -/
theorem C1_counterexample :
    (get_user envNF 0 st0 "doesnotexist123").result =
      .error ⟨404, "PROFILE_NOT_FOUND", "No data returned for @doesnotexist123"⟩
    ∧ (get_user envNF 0 st0 "doesnotexist123").st.cache = []
    ∧ (get_user envNF 1 (get_user envNF 0 st0 "doesnotexist123").st
        "doesnotexist123").pollerInvoked = true :=
  ⟨by decide, by decide, by decide⟩

/-- C1 (amended): on `NotFound`, `resolve` returns `NotFound` and writes no
cache entry whatsoever; consequently every subsequent `resolve` for that key
(at any later time, under any environment) invokes the Job Poller again —
there is no negative caching. -/
theorem C1_notfound_never_cached (env env2 : ApifyEnv) (now now2 : Nat) (st : St)
    (u d : String)
    (hval : validate_username u = true)
    (hmiss : dictGet st.cache u = none)
    (hnf : fetch_from_apify env u = .error (.httpExc ⟨404, "PROFILE_NOT_FOUND", d⟩)) :
    (get_user env now st u).result = .error ⟨404, "PROFILE_NOT_FOUND", d⟩
    ∧ (get_user env now st u).st.cache = st.cache
    ∧ (get_user env2 now2 (get_user env now st u).st u).pollerInvoked = true := by
  rw [get_user_of_valid_miss env now st u hval hmiss,
      get_user_miss_result_of_httpExc env now { st with misses := st.misses + 1 } u _ hnf]
  refine ⟨rfl, rfl, ?_⟩
  show (get_user env2 now2 { st with misses := st.misses + 1 } u).pollerInvoked = true
  rw [get_user_of_valid_miss env2 now2 { st with misses := st.misses + 1 } u hval hmiss]
  exact get_user_miss_pollerInvoked env2 now2 _ u

/-- C1 witness: the amended statement instantiated at the concrete
`NotFound` run of `C1_counterexample`. -/
theorem C1_witness :
    validate_username "doesnotexist123" = true
    ∧ (get_user envNF 1 (get_user envNF 0 st0 "doesnotexist123").st
        "doesnotexist123").pollerInvoked = true :=
  ⟨by decide,
    (C1_notfound_never_cached envNF envNF 0 1 st0 "doesnotexist123"
      "No data returned for @doesnotexist123" (by decide) rfl (by decide)).2.2⟩

/-- C2: after a successful miss for a valid key, a `resolve` at any instant
strictly before the entry expiry returns the identical payload without
invoking the Job Poller, and once `now + CACHE_TTL ≤ now2` the entry is
treated as absent and the Job Poller is invoked again. -/
theorem C2_cache_hit_until_ttl (env env2 : ApifyEnv) (now now2 : Nat) (st : St)
    (u : String) (raw : ProfileDict)
    (hval : validate_username u = true)
    (hmiss : dictGet st.cache u = none)
    (hok : fetch_from_apify env u = .ok raw) :
    (get_user env now st u).result = .ok (format_profile raw)
    ∧ (now2 < now + CACHE_TTL →
        (get_user env2 now2 (get_user env now st u).st u).result
            = .ok (format_profile raw)
        ∧ (get_user env2 now2 (get_user env now st u).st u).pollerInvoked = false)
    ∧ (now + CACHE_TTL ≤ now2 →
        (get_user env2 now2 (get_user env now st u).st u).pollerInvoked = true) := by
  rw [get_user_of_valid_miss env now st u hval hmiss,
      get_user_miss_result_of_ok env now { st with misses := st.misses + 1 } u raw hok]
  refine ⟨rfl, fun hlt => ?_, fun hge => ?_⟩
  · show (get_user env2 now2 (st_after_success st u (format_profile raw) now) u).result
        = .ok (format_profile raw)
      ∧ (get_user env2 now2 (st_after_success st u (format_profile raw) now) u).pollerInvoked
        = false
    rw [get_user_hit env2 now2 (st_after_success st u (format_profile raw) now) u
      ⟨format_profile raw, now + CACHE_TTL⟩ hval (dictGet_dictSet_self _ _ _) hlt]
    exact ⟨rfl, rfl⟩
  · show (get_user env2 now2 (st_after_success st u (format_profile raw) now) u).pollerInvoked
        = true
    rw [get_user_stale env2 now2 (st_after_success st u (format_profile raw) now) u
      ⟨format_profile raw, now + CACHE_TTL⟩ hval (dictGet_dictSet_self _ _ _)
      (by show ¬ now2 < now + CACHE_TTL; omega)]
    exact get_user_miss_pollerInvoked env2 now2 _ u

/-- C2 witness: the `"nasa"` scenario — miss at time 0, hit at time 1 with
the identical payload and no poller invocation. -/
theorem C2_witness :
    validate_username "nasa" = true
    ∧ (get_user envOK 0 st0 "nasa").result = .ok (format_profile nasaProfile)
    ∧ (get_user envOK 1 (get_user envOK 0 st0 "nasa").st "nasa").result
        = .ok (format_profile nasaProfile)
    ∧ (get_user envOK 1 (get_user envOK 0 st0 "nasa").st "nasa").pollerInvoked = false :=
  ⟨by decide,
    (C2_cache_hit_until_ttl envOK envOK 0 1 st0 "nasa" nasaProfile
      (by decide) rfl (by decide)).1,
    ((C2_cache_hit_until_ttl envOK envOK 0 1 st0 "nasa" nasaProfile
      (by decide) rfl (by decide)).2.1 (by decide)).1,
    ((C2_cache_hit_until_ttl envOK envOK 0 1 st0 "nasa" nasaProfile
      (by decide) rfl (by decide)).2.1 (by decide)).2⟩

/-- C3 counterexample: the key `"nasa\n"` (trailing newline) does not match
the spec grammar, yet `validate_username` accepts it — Python's `$` matches
before a trailing newline — and `resolve` then reaches the Job Poller. -/
theorem C3_counterexample :
    validate_username "nasa\n" = true
    ∧ spec_key_grammar "nasa\n" = false
    ∧ (get_user envOK 0 st0 "nasa\n").pollerInvoked = true :=
  ⟨by decide, by decide, by decide⟩

/-- C3 (amended): `resolve` accepts a key iff it matches the spec grammar
`^[A-Za-z0-9._]{1,30}$` or is such a key followed by one trailing newline
(Python `re` `$` semantics); every rejected key fails with `InvalidKey`
before any cache lookup or remote call — state untouched, poller not
invoked. -/
theorem C3_key_grammar (u : String) (env : ApifyEnv) (now : Nat) (st : St) :
    validate_username u = python_relaxed_grammar u
    ∧ (validate_username u = false →
        (get_user env now st u).result =
          .error ⟨400, "INVALID_USERNAME", "Instagram username format invalid"⟩
        ∧ (get_user env now st u).st = st
        ∧ (get_user env now st u).pollerInvoked = false) := by
  refine ⟨validate_username_eq_relaxed u, fun hinv => ?_⟩
  unfold get_user
  rw [hinv]
  exact ⟨rfl, rfl, rfl⟩

/-- C3 witness: `"bad/name"` is rejected with no state change. -/
theorem C3_witness :
    validate_username "bad/name" = false
    ∧ (get_user envOK 0 st0 "bad/name").st = st0
    ∧ (get_user envOK 0 st0 "bad/name").pollerInvoked = false :=
  ⟨by decide,
    ((C3_key_grammar "bad/name" envOK 0 st0).2 (by decide)).2.1,
    ((C3_key_grammar "bad/name" envOK 0 st0).2 (by decide)).2.2⟩

/-- C4: when the status stream is never terminal before the deadline, the
run is classified `PollTimeout` (`504 APIFY_TIMEOUT`) and no cache entry is
written. -/
theorem C4_poll_timeout (env : ApifyEnv) (now : Nat) (st : St) (u : String)
    (r : SubmitResp)
    (hval : validate_username u = true)
    (hmiss : dictGet st.cache u = none)
    (hsub : env.submit = .ok r)
    (h201 : r.status_code = 201)
    (hid : r.id?.isSome = true)
    (hdid : r.defaultDatasetId?.isSome = true)
    (hnt : ∀ k, k < MAX_WAIT_TIME → isTerminal (env.statusAt k) = false) :
    (get_user env now st u).result = .error ⟨504, "APIFY_TIMEOUT", ""⟩
    ∧ (get_user env now st u).st.cache = st.cache := by
  obtain ⟨rid, hrid⟩ := Option.isSome_iff_exists.mp hid
  obtain ⟨did, hdid'⟩ := Option.isSome_iff_exists.mp hdid
  have hfetch : fetch_from_apify env u = .error (.httpExc ⟨504, "APIFY_TIMEOUT", ""⟩) := by
    simp [fetch_from_apify, hsub, h201, hrid, hdid',
      poll_wait_timeout env.statusAt 0 MAX_WAIT_TIME hnt]
  rw [get_user_of_valid_miss env now st u hval hmiss,
      get_user_miss_result_of_httpExc env now { st with misses := st.misses + 1 } u _ hfetch]
  exact ⟨rfl, rfl⟩

/-- C4 witness: a run that stays `RUNNING` forever times out and caches
nothing. -/
theorem C4_witness :
    validate_username "nasa" = true
    ∧ (get_user envTO 0 st0 "nasa").result = .error ⟨504, "APIFY_TIMEOUT", ""⟩
    ∧ (get_user envTO 0 st0 "nasa").st.cache = st0.cache :=
  ⟨by decide,
    (C4_poll_timeout envTO 0 st0 "nasa" ⟨201, "", some "run1", some "ds1"⟩
      (by decide) rfl rfl rfl rfl rfl (fun k _ => rfl)).1,
    (C4_poll_timeout envTO 0 st0 "nasa" ⟨201, "", some "run1", some "ds1"⟩
      (by decide) rfl rfl rfl rfl rfl (fun k _ => rfl)).2⟩

/-- C5 counterexample: a transport-level submit failure is surfaced as
`503 APIFY_UNREACHABLE` and nothing is cached, but the alerting collaborator
is not notified — the alert log stays empty, contradicting the claimed
notification. -/
theorem C5_counterexample :
    (get_user envUR 0 st0 "nasa").result =
      .error ⟨503, "APIFY_UNREACHABLE", "connection refused"⟩
    ∧ (get_user envUR 0 st0 "nasa").st.cache = []
    ∧ (get_user envUR 0 st0 "nasa").st.alerts = [] :=
  ⟨by decide, by decide, by decide⟩

/-- C5 (amended): on every classified failure other than `NotFound` the
coordinator writes nothing to the cache and surfaces the failure with its
kind unchanged, but does not notify the alerting collaborator — the
notifier runs only for unclassified exceptions (`InternalError`). -/
theorem C5_no_alert_on_classified_failure (env : ApifyEnv) (now : Nat) (st : St)
    (u : String) (e : HttpError)
    (hval : validate_username u = true)
    (hmiss : dictGet st.cache u = none)
    (herr : fetch_from_apify env u = .error (.httpExc e))
    (_hne : e.error ≠ "PROFILE_NOT_FOUND") :
    (get_user env now st u).result = .error e
    ∧ (get_user env now st u).st.cache = st.cache
    ∧ (get_user env now st u).st.alerts = st.alerts := by
  rw [get_user_of_valid_miss env now st u hval hmiss,
      get_user_miss_result_of_httpExc env now { st with misses := st.misses + 1 } u e herr]
  exact ⟨rfl, rfl, rfl⟩

/-- C5 witness: the amended statement at the unreachable-submit run. -/
theorem C5_witness :
    validate_username "nasa" = true
    ∧ (get_user envUR 0 st0 "nasa").result =
        .error ⟨503, "APIFY_UNREACHABLE", "connection refused"⟩
    ∧ (get_user envUR 0 st0 "nasa").st.alerts = st0.alerts :=
  ⟨by decide,
    (C5_no_alert_on_classified_failure envUR 0 st0 "nasa"
      ⟨503, "APIFY_UNREACHABLE", "connection refused"⟩
      (by decide) rfl (by decide) (by decide)).1,
    (C5_no_alert_on_classified_failure envUR 0 st0 "nasa"
      ⟨503, "APIFY_UNREACHABLE", "connection refused"⟩
      (by decide) rfl (by decide) (by decide)).2.2⟩

/-- C6 counterexample: a 201 submit response whose body lacks `run_id`
raises an unclassified `KeyError`, which `resolve` wraps as
`500 INTERNAL_ERROR` — not the claimed `SubmitFailed` classification. -/
theorem C6_counterexample :
    fetch_from_apify envNoId "nasa" = .error (.pyError "KeyError: id")
    ∧ (get_user envNoId 0 st0 "nasa").result =
        .error ⟨500, "INTERNAL_ERROR", "KeyError: id"⟩ :=
  ⟨by decide, by decide⟩

/-- C6 (amended): in the submit phase exactly status 201 counts as success;
a transport failure is classified `Unreachable` (`503 APIFY_UNREACHABLE`);
any non-201 response is a submit failure surfaced as
`502 APIFY_RUN_FAILED`; a 201 response from which `run_id` cannot be
extracted raises an unclassified `KeyError` (wrapped later as
`InternalError`), not a submit-failure classification. -/
theorem C6_submit_classification (u d : String) (e1 e2 e3 : ApifyEnv)
    (r2 r3 : SubmitResp)
    (h1 : e1.submit = .error d)
    (h2 : e2.submit = .ok r2) (h2c : r2.status_code ≠ 201)
    (h3 : e3.submit = .ok r3) (h3c : r3.status_code = 201) (h3id : r3.id? = none) :
    fetch_from_apify e1 u = .error (.httpExc ⟨503, "APIFY_UNREACHABLE", d⟩)
    ∧ fetch_from_apify e2 u = .error (.httpExc ⟨502, "APIFY_RUN_FAILED", r2.text⟩)
    ∧ fetch_from_apify e3 u = .error (.pyError "KeyError: id") := by
  refine ⟨?_, ?_, ?_⟩
  · simp [fetch_from_apify, h1]
  · simp [fetch_from_apify, h2, h2c]
  · simp [fetch_from_apify, h3, h3c, h3id]

/-- C6 witness: the three submit outcomes at concrete environments. -/
theorem C6_witness :
    fetch_from_apify envUR "nasa" =
      .error (.httpExc ⟨503, "APIFY_UNREACHABLE", "connection refused"⟩)
    ∧ fetch_from_apify env502 "nasa" =
      .error (.httpExc ⟨502, "APIFY_RUN_FAILED", "actor quota exceeded"⟩)
    ∧ fetch_from_apify envNoId "nasa" = .error (.pyError "KeyError: id") :=
  C6_submit_classification "nasa" "connection refused" envUR env502 envNoId
    ⟨403, "actor quota exceeded", some "run1", some "ds1"⟩
    ⟨201, "", none, none⟩
    rfl rfl (by decide) rfl rfl rfl

/-- C7 counterexample: the configuration carries one single TTL
(`CACHE_TTL = 300`); a `NotFound` outcome is retained for no time at all —
the very next `resolve`, at the same instant, already invokes the Job
Poller again — so no negative TTL exists, let alone one strictly greater
than the positive TTL. -/
theorem C7_counterexample :
    CACHE_TTL = 300
    ∧ (get_user envNF 0 st0 "doesnotexist123").st.cache = st0.cache
    ∧ (get_user envNF 0 (get_user envNF 0 st0 "doesnotexist123").st
        "doesnotexist123").pollerInvoked = true :=
  ⟨rfl, by decide, by decide⟩

/-- C7 (amended): the configuration defines exactly one TTL,
`CACHE_TTL = 300` seconds, applied only to successful results; `NotFound`
outcomes are never written to the cache (behaviorally a zero negative TTL),
so the claimed strict inequality between a negative and a positive TTL does
not hold. -/
theorem C7_single_positive_ttl (env : ApifyEnv) (now : Nat) (st : St)
    (u d : String)
    (hval : validate_username u = true)
    (hmiss : dictGet st.cache u = none)
    (hnf : fetch_from_apify env u = .error (.httpExc ⟨404, "PROFILE_NOT_FOUND", d⟩)) :
    CACHE_TTL = 300
    ∧ (get_user env now st u).st.cache = st.cache
    ∧ (get_user env now (get_user env now st u).st u).pollerInvoked = true := by
  rw [get_user_of_valid_miss env now st u hval hmiss,
      get_user_miss_result_of_httpExc env now { st with misses := st.misses + 1 } u _ hnf]
  refine ⟨rfl, rfl, ?_⟩
  show (get_user env now { st with misses := st.misses + 1 } u).pollerInvoked = true
  rw [get_user_of_valid_miss env now { st with misses := st.misses + 1 } u hval hmiss]
  exact get_user_miss_pollerInvoked env now _ u

/-- C7 witness: the amended statement at the empty-dataset run. -/
theorem C7_witness :
    CACHE_TTL = 300
    ∧ (get_user envNF 0 st0 "doesnotexist123").st.cache = st0.cache :=
  ⟨(C7_single_positive_ttl envNF 0 st0 "doesnotexist123"
      "No data returned for @doesnotexist123" (by decide) rfl (by decide)).1,
    (C7_single_positive_ttl envNF 0 st0 "doesnotexist123"
      "No data returned for @doesnotexist123" (by decide) rfl (by decide)).2.1⟩

/-- C8: on a successful poll the raw result is transformed field by field;
a raw `followersCount` of 100 surfaces as `followers = 100`, a fully absent
upstream profile projects to all-absent fields without error, and the
formatted profile is cached with expiry `now + CACHE_TTL`. -/
theorem C8_field_projection (env : ApifyEnv) (now : Nat) (st : St) (u : String)
    (raw : ProfileDict)
    (hval : validate_username u = true)
    (hmiss : dictGet st.cache u = none)
    (hok : fetch_from_apify env u = .ok raw)
    (hfc : dictGet raw "followersCount" = some (.n 100)) :
    (get_user env now st u).result = .ok (format_profile raw)
    ∧ (format_profile raw).followers = some (.n 100)
    ∧ format_profile [] = ⟨none, none, none, none, none, none, none⟩
    ∧ dictGet (get_user env now st u).st.cache u =
        some ⟨format_profile raw, now + CACHE_TTL⟩ := by
  rw [get_user_of_valid_miss env now st u hval hmiss,
      get_user_miss_result_of_ok env now { st with misses := st.misses + 1 } u raw hok]
  refine ⟨rfl, ?_, rfl, ?_⟩
  · simp [format_profile, hfc]
  · show dictGet (dictSet st.cache u ⟨format_profile raw, now + CACHE_TTL⟩) u = _
    exact dictGet_dictSet_self _ _ _

/-- C8 witness: the `"nasa"` scenario with `followersCount = 100`. -/
theorem C8_witness :
    dictGet nasaProfile "followersCount" = some (.n 100)
    ∧ (get_user envOK 0 st0 "nasa").result = .ok (format_profile nasaProfile)
    ∧ (format_profile nasaProfile).followers = some (.n 100) :=
  ⟨by decide,
    (C8_field_projection envOK 0 st0 "nasa" nasaProfile
      (by decide) rfl (by decide) (by decide)).1,
    (C8_field_projection envOK 0 st0 "nasa" nasaProfile
      (by decide) rfl (by decide) (by decide)).2.1⟩

/-- C9: the poll loop always terminates, issues at most
`MAX_WAIT_TIME / POLL_INTERVAL = 15` status queries, and exits through a
terminal status (`SUCCEEDED` or a run failure) or the timeout branch —
there is no other outcome. -/
theorem C9_poll_loop_bounded (statusAt : Nat → String) :
    (poll_wait statusAt 0 MAX_WAIT_TIME).2 ≤ MAX_WAIT_TIME / POLL_INTERVAL
    ∧ MAX_WAIT_TIME / POLL_INTERVAL = 15
    ∧ ((poll_wait statusAt 0 MAX_WAIT_TIME).1 = .ok ()
      ∨ (∃ s, (poll_wait statusAt 0 MAX_WAIT_TIME).1 =
          .error ⟨502, "APIFY_RUN_FAILED", "Actor run status: " ++ s⟩)
      ∨ (poll_wait statusAt 0 MAX_WAIT_TIME).1 = .error ⟨504, "APIFY_TIMEOUT", ""⟩) := by
  refine ⟨?_, rfl, poll_wait_classified statusAt 0 MAX_WAIT_TIME⟩
  have hb := poll_wait_count_le statusAt 0 MAX_WAIT_TIME
  simpa using hb

/-- C10: the alert log is bounded — every `notify_telegram` output has
length at most 10; `get_stats` exposes exactly the stored list; and a
`get_user` call either leaves the alert log untouched or leaves one of
length at most 10. -/
theorem C10_alert_log_bounded (last_alerts : List Alert) (now : Nat)
    (message : String) (st : St) (env : ApifyEnv) (u : String) :
    (notify_telegram last_alerts now message).length ≤ 10
    ∧ (get_stats st).last_alerts = st.alerts
    ∧ ((get_user env now st u).st.alerts = st.alerts
        ∨ (get_user env now st u).st.alerts.length ≤ 10) := by
  refine ⟨notify_telegram_length_le last_alerts now message, rfl, ?_⟩
  unfold get_user
  split
  · left; rfl
  · split
    · split
      · left; rfl
      · exact get_user_miss_alerts env now _ u
    · exact get_user_miss_alerts env now _ u
